import Mathlib

/-!
Shallow embedding of `src/dashboard.py` (a pandas/Streamlit dashboard that
loads six CSV files of HIV/AIDS statistics, cleans them, outer-merges them
on `Country`, filters by WHO region and renders aggregates).

Modelling conventions:
* A pandas column is either an object column (cells `Option String`, `none`
  modelling `NaN`/`pd.NA`) or a numeric column (cells `Option Rat`, `none`
  modelling `NaN`).  A DataFrame is a list of named columns.
* Python `float(...)` (which raises `ValueError` on bad input) is modelled by
  `pyFloat : String → Option Rat`; a raised exception is an `Except.error`.
  Floats are embedded as rationals; the special literals `inf`/`nan` and
  underscore separators accepted by Python are outside the model.
* `pd.to_numeric(..., errors='coerce')` is modelled by a best-effort parse
  whose failures become `none`.
-/

/-- One merged-table cell: missing, a string, or a number. -/
inductive Val where
  | na : Val
  | str (s : String) : Val
  | num (q : ℚ) : Val
deriving DecidableEq, Repr

/-- The data of one DataFrame column: object dtype (strings) or numeric. -/
inductive ColData where
  | obj (cells : List (Option String)) : ColData
  | num (cells : List (Option ℚ)) : ColData
deriving DecidableEq, Repr

/-- A DataFrame: named columns in order. -/
abbrev Table := List (String × ColData)

deriving instance DecidableEq for Except

/-- Numeric value of the digit list `cs` (most significant first). -/
def digitsToNat (cs : List Char) : Nat :=
  cs.foldl (fun a c => 10 * a + (c.toNat - 48)) 0

/-- Split a char list at the first char satisfying `p`; `none` if absent. -/
def splitAtChar (p : Char → Bool) : List Char → List Char × Option (List Char)
  | [] => ([], none)
  | c :: cs =>
    if p c then ([], some cs)
    else
      let r := splitAtChar p cs
      (c :: r.1, r.2)

/-- Parse the exponent part of a float literal (after `e`/`E`). -/
def parseExp (cs : List Char) : Option Int :=
  match cs with
  | [] => none
  | '+' :: ds => if ds ≠ [] ∧ ds.all Char.isDigit then some (digitsToNat ds : Int) else none
  | '-' :: ds => if ds ≠ [] ∧ ds.all Char.isDigit then some (-(digitsToNat ds : Int)) else none
  | ds => if ds.all Char.isDigit then some (digitsToNat ds : Int) else none

/-- Parse the mantissa `digits[.digits]` of a float literal. -/
def parseMantissa (cs : List Char) : Option ℚ :=
  let s := splitAtChar (fun c => c = '.') cs
  match s.2 with
  | none =>
    if s.1 ≠ [] ∧ s.1.all Char.isDigit then some (digitsToNat s.1 : ℚ) else none
  | some frac =>
    if (s.1 ≠ [] ∨ frac ≠ []) ∧ s.1.all Char.isDigit ∧ frac.all Char.isDigit then
      some ((digitsToNat s.1 : ℚ) + (digitsToNat frac : ℚ) / (10 : ℚ) ^ frac.length)
    else none

/-- Drop leading whitespace characters. -/
def dropLeadingWs : List Char → List Char
  | [] => []
  | c :: cs => if c.isWhitespace then dropLeadingWs cs else c :: cs

/-- Strip whitespace from both ends (Python `float` ignores surrounding
whitespace). -/
def trimChars (cs : List Char) : List Char :=
  (dropLeadingWs (dropLeadingWs cs).reverse).reverse

/-- Unsigned part of a float literal: mantissa with optional exponent. -/
def pyFloatUnsigned (cs : List Char) : Option ℚ :=
  let me := splitAtChar (fun c => c = 'e' ∨ c = 'E') cs
  match me.2 with
  | none => parseMantissa me.1
  | some ec =>
    match parseMantissa me.1, parseExp ec with
    | some q, some e => some (q * (10 : ℚ) ^ e)
    | _, _ => none

/-- Model of Python `float(s)`: `none` models a raised `ValueError`. -/
def pyFloat (s : String) : Option ℚ :=
  match trimChars s.data with
  | '+' :: r => pyFloatUnsigned r
  | '-' :: r => (pyFloatUnsigned r).map (fun q => -q)
  | r => pyFloatUnsigned r

/-- First token of `re.split(r'\s|\[', s)`: the prefix before the first
whitespace or `[` character. -/
def firstTokChars : List Char → List Char
  | [] => []
  | c :: cs => if c.isWhitespace ∨ c = '[' then [] else c :: firstTokChars cs

/-- String version of `firstTokChars`. -/
def firstToken (s : String) : String := ⟨firstTokChars s.data⟩

/-- Does `re.search(r'\[(.*?)\]', ·)` find a `]` before a newline? -/
def closesBracket : List Char → Bool
  | [] => false
  | c :: cs => if c = ']' then true else if c = '\n' then false else closesBracket cs

/-- Scan for `[` followed by a `]` with no intervening newline
(the regex `\[(.*?)\]` where `.` does not match newline). -/
def hasBracketPairChars : List Char → Bool
  | [] => false
  | c :: cs =>
    if c = '[' then (closesBracket cs || hasBracketPairChars cs)
    else hasBracketPairChars cs

/-- `str.contains(r'\[(.*?)\]')` on a single cell string. -/
def hasBracketPair (s : String) : Bool := hasBracketPairChars s.data

/-- `df[col].replace({'Nodata': pd.NA, 'na': pd.NA, 'No data': pd.NA})`
applied to one cell (dashboard.py line 85). -/
def replaceMissing (c : Option String) : Option String :=
  match c with
  | some s => if s = "Nodata" ∨ s = "na" ∨ s = "No data" then none else some s
  | none => none

/-- The bracket-detection predicate on a cell after `astype(str)`:
a missing cell stringifies without brackets (dashboard.py line 86). -/
def objCellBracket (c : Option String) : Bool :=
  match c with
  | some s => hasBracketPair s
  | none => false

/-- The median-extraction lambda of dashboard.py line 89:
`float(re.split(r'\s|\[', str(x))[0]) if pd.notna(x) else pd.NA`.
`Except.error` models the uncaught `ValueError` of `float`. -/
def extractMedian (x : Option String) : Except Unit (Option ℚ) :=
  match x with
  | none => Except.ok none
  | some s =>
    match pyFloat (firstToken s) with
    | some q => Except.ok (some q)
    | none => Except.error ()

/-- Fuel-driven core of Python `str.replace`: replace the leftmost,
non-overlapping occurrences of a non-empty `pat` by `rep`. -/
def replaceCharsAux (pat rep : List Char) : Nat → List Char → List Char
  | _, [] => []
  | 0, cs => cs
  | fuel + 1, c :: cs =>
    if pat.isPrefixOf (c :: cs) ∧ pat ≠ [] then
      rep ++ replaceCharsAux pat rep fuel (List.drop (pat.length - 1) cs)
    else
      c :: replaceCharsAux pat rep fuel cs

/-- Python `s.replace(pat, rep)` for non-empty patterns. -/
def replaceChars (pat rep cs : List Char) : List Char :=
  replaceCharsAux pat rep cs.length cs

/-- Column-name normalisation of dashboard.py line 81:
`col.replace(' ', '_').replace('(%)', 'percent').replace('(15-49)', '15_49')`. -/
def renameHeader (c : String) : String :=
  ⟨replaceChars "(15-49)".data "15_49".data
    (replaceChars "(%)".data "percent".data
      (replaceChars " ".data "_".data c.data))⟩

/-- `df[col]` by name (first matching column). -/
def getCol (t : Table) (name : String) : Option ColData :=
  match t with
  | [] => none
  | p :: rest => if p.1 = name then some p.2 else getCol rest name

/-- `name in df.columns`. -/
def hasCol (t : Table) (name : String) : Bool := (getCol t name).isSome

/-- In-place column assignment `df[col] = ...`. -/
def setCol (t : Table) (name : String) (d : ColData) : Table :=
  t.map (fun p => if p.1 = name then (p.1, d) else p)

/-- One iteration of the `for col in df.columns:` loop of
dashboard.py lines 83-90, threading the live table and `cols_to_drop`. -/
def phase1Step (acc : Table × List String) (colName : String) :
    Except Unit (Table × List String) :=
  match getCol acc.1 colName with
  | some (ColData.obj cells) =>
    let cells2 := cells.map replaceMissing
    let t2 := setCol acc.1 colName (ColData.obj cells2)
    if cells2.any objCellBracket then
      let newName := colName ++ "_median"
      if hasCol t2 newName then
        Except.ok (t2, acc.2 ++ [colName])
      else
        (cells2.mapM extractMedian).map
          (fun meds => (t2 ++ [(newName, ColData.num meds)], acc.2 ++ [colName]))
    else
      Except.ok (t2, acc.2)
  | _ => Except.ok acc

/-- The whole first loop of `clean_and_extract`: iterate over the snapshot of
column names taken at loop entry (pandas `for col in df.columns`). -/
def phase1 (t : Table) : Except Unit (Table × List String) :=
  (t.map Prod.fst).foldlM phase1Step (t, [])

/-- `pd.to_numeric(·, errors='coerce')` on one column (line 94). -/
def coerceNumeric : ColData → List (Option ℚ)
  | ColData.obj cells => cells.map (fun c => c.bind pyFloat)
  | ColData.num cells => cells

/-- The second loop of `clean_and_extract` (lines 92-94): every column other
than `Country` and `WHO_Region` is coerced to numeric. -/
def phase2 (t : Table) : Table :=
  t.map (fun p =>
    if p.1 = "Country" ∨ p.1 = "WHO_Region" then p
    else (p.1, ColData.num (coerceNumeric p.2)))

/-- `clean_and_extract` (dashboard.py lines 80-95): rename headers, run the
object-column loop, drop the consumed range columns, coerce to numeric.
`Except.error` models an uncaught exception aborting the cleaning. -/
def clean_and_extract (t : Table) : Except Unit Table :=
  let t1 := t.map (fun p => (renameHeader p.1, p.2))
  (phase1 t1).map (fun pr =>
    phase2 (pr.1.filter (fun p => decide (p.1 ∉ pr.2))))

/-- `df.rename(columns={old: new})` (dashboard.py lines 101-104). -/
def renameCol (t : Table) (old new : String) : Table :=
  t.map (fun p => if p.1 = old then (new, p.2) else p)

/-!
Row-oriented view used for the merge.  `pd.merge(..., on='Country')` keys
rows by the `Country` cell; we factor the key out of each row, so an
`MTable` is a non-key header together with rows `(country, values)`.
Column order relative to pandas is immaterial to the properties proved.
-/

/-- A keyed table: `header` names the non-key columns; each row is the
`Country` key paired with the non-key cells in header order. -/
structure MTable where
  header : List String
  rows : List (Val × List Val)
deriving DecidableEq, Repr

/-- The `Country` column of a keyed table. -/
def MTable.keys (t : MTable) : List Val := t.rows.map Prod.fst

/-- Cells of an object/numeric column as merged-table values. -/
def ColData.toVals : ColData → List Val
  | ColData.obj cells => cells.map (fun c => match c with | some s => Val.str s | none => Val.na)
  | ColData.num cells => cells.map (fun c => match c with | some q => Val.num q | none => Val.na)

/-- Key a cleaned DataFrame by its `Country` column. -/
def toMTable (t : Table) : MTable :=
  let keyCells : List Val := match getCol t "Country" with
    | some d => d.toVals
    | none => []
  let others := t.filter (fun p => decide (p.1 ≠ "Country"))
  { header := others.map Prod.fst,
    rows := (List.range keyCells.length).map
      (fun i => (keyCells.getD i Val.na,
                 others.map (fun p => p.2.toVals.getD i Val.na))) }

/-- `df.drop(columns=[name], errors='ignore')` on a keyed table. -/
def MTable.dropCol (t : MTable) (name : String) : MTable :=
  { header := t.header.filter (fun c => decide (c ≠ name)),
    rows := t.rows.map (fun p =>
      (p.1, ((t.header.zip p.2).filter (fun q => decide (q.1 ≠ name))).map Prod.snd)) }

/-- Merged rows contributed by one left row: all right rows with the same
key (or one NA-filled row when unmatched). -/
def mergeRowsLeft (r : MTable) (lp : Val × List Val) : List (Val × List Val) :=
  if r.rows.filter (fun rp => decide (rp.1 = lp.1)) = [] then
    [(lp.1, lp.2 ++ List.replicate r.header.length Val.na)]
  else
    (r.rows.filter (fun rp => decide (rp.1 = lp.1))).map (fun rp => (lp.1, lp.2 ++ rp.2))

/-- Merged rows contributed by the right rows whose key matches no left
key, with NA-filled left cells. -/
def mergeRowsRight (l r : MTable) : List (Val × List Val) :=
  (r.rows.filter (fun rp => l.rows.all (fun lp => decide (lp.1 ≠ rp.1)))).map
    (fun rp => (rp.1, List.replicate l.header.length Val.na ++ rp.2))

/-- `pd.merge(l, r, on='Country', how='outer')` (dashboard.py line 110).
Shared non-key column names receive pandas' `_x`/`_y` suffixes; every left
row is kept (matched against all right rows with the same key, or NA-filled),
followed by the unmatched right rows with NA-filled left cells. -/
def mergeOuter (l r : MTable) : MTable :=
  { header :=
      l.header.map (fun c => if c ∈ r.header then c ++ "_x" else c)
      ++ r.header.map (fun c => if c ∈ l.header then c ++ "_y" else c),
    rows := (l.rows.map (mergeRowsLeft r)).flatten ++ mergeRowsRight l r }

/-- The merge chain of dashboard.py lines 106-110: start from the
living-with-HIV table, fold the other five in, dropping each right table's
`WHO_Region` before merging. -/
def load_merge (living deaths adult_cases art paed pmtct : MTable) : MTable :=
  [deaths, adult_cases, art, paed, pmtct].foldl
    (fun acc d => mergeOuter acc (d.dropCol "WHO_Region")) living

/-- The whole `load_and_clean_data` body after `read_csv` (lines 80-111):
clean all six tables, apply the per-source renames, merge. -/
def load_and_clean_data (art paed adult deaths living pmtct : Table) :
    Except Unit MTable := do
  let artC ← clean_and_extract art
  let paedC ← clean_and_extract paed
  let adultC ← clean_and_extract adult
  let deathsC ← clean_and_extract deaths
  let livingC ← clean_and_extract living
  let pmtctC ← clean_and_extract pmtct
  let livingR := renameCol livingC "Count_median" "Count_median_living"
  let deathsR := renameCol deathsC "Count_median" "Count_median_deaths"
  let adultR := renameCol adultC "Count_median" "Count_median_adult_cases"
  let pmtctR := renameCol pmtctC "Percentage_Recieved_median" "PMTCT_Percentage_Recieved_median"
  Except.ok (load_merge (toMTable livingR) (toMTable deathsR) (toMTable adultR)
    (toMTable artC) (toMTable paedC) (toMTable pmtctR))

/-!  Sidebar filtering and the displayed aggregates (lines 120-124, 135-137,
181-216).  pandas `Series == sel` is `False` on `NaN`, `.sum()`/`.mean()`
skip `NaN`, and the dropdown is `["All"] + sorted(region.dropna().unique())`. -/

/-- Cell of row values `vs` under header `hd` at column `name`. -/
def cellAt (hd : List String) (vs : List Val) (name : String) : Val :=
  match hd.findIdx? (fun c => c = name) with
  | some i => vs.getD i Val.na
  | none => Val.na

/-- The `WHO_Region` cell of a row. -/
def regionOf (t : MTable) (row : Val × List Val) : Val :=
  cellAt t.header row.2 "WHO_Region"

/-- Lines 123-124: `if selected_region != "All": data = data[data["WHO_Region"] == selected_region]`. -/
def filterRegion (t : MTable) (sel : String) : MTable :=
  if sel = "All" then t
  else { t with rows := t.rows.filter (fun row => decide (regionOf t row = Val.str sel)) }

/-- The non-null region strings, in row order. -/
def regionStrs (t : MTable) : List String :=
  t.rows.filterMap (fun row =>
    match regionOf t row with
    | Val.str s => some s
    | _ => none)

/-- Lexicographic comparison of char lists by code point; models Python's
string ordering used by `sorted`. -/
def charsLe : List Char → List Char → Bool
  | [], _ => true
  | _ :: _, [] => false
  | a :: as, b :: bs => if a < b then true else if a = b then charsLe as bs else false

/-- Python's `s1 <= s2` on strings. -/
def pyStrLe (a b : String) : Prop := charsLe a.data b.data = true

instance : DecidableRel pyStrLe := fun a b =>
  inferInstanceAs (Decidable (charsLe a.data b.data = true))

/-- Line 121: `["All"] + sorted(data["WHO_Region"].dropna().unique().tolist())`. -/
def regionList (t : MTable) : List String :=
  "All" :: List.insertionSort pyStrLe (regionStrs t).dedup

/-- Numeric content of a merged cell (`NaN` and strings are skipped by
pandas numeric aggregation). -/
def toNumOpt : Val → Option ℚ
  | Val.num q => some q
  | _ => none

/-- `Series.sum()`: sum of the non-missing numeric cells. -/
def colSum (cells : List Val) : ℚ := (cells.filterMap toNumOpt).sum

/-- `Series.mean()`: `NaN` (modelled `none`) on an all-missing column. -/
def colMean (cells : List Val) : Option ℚ :=
  let xs := cells.filterMap toNumOpt
  if xs.length = 0 then none else some (xs.sum / (xs.length : ℚ))

/-- A named column of the merged table, row by row. -/
def colVals (t : MTable) (name : String) : List Val :=
  t.rows.map (fun row => cellAt t.header row.2 name)

/-- Line 135: `data['Count_median_living'].sum()`. -/
def total_living (t : MTable) : ℚ := colSum (colVals t "Count_median_living")

/-- `data.groupby("WHO_Region")[col].sum()` at one region (lines 181, 186). -/
def regionGroupSum (t : MTable) (col reg : String) : ℚ :=
  colSum ((t.rows.filter (fun row => decide (regionOf t row = Val.str reg))).map
    (fun row => cellAt t.header row.2 col))

/-- `data.groupby("WHO_Region")[col].mean()` at one region (lines 203, 208, 215). -/
def regionGroupMean (t : MTable) (col reg : String) : Option ℚ :=
  colMean ((t.rows.filter (fun row => decide (regionOf t row = Val.str reg))).map
    (fun row => cellAt t.header row.2 col))

/-!  Script-level control flow for the error paths (lines 22-65, 71-78, 113+):
`set_background` catches `FileNotFoundError` and shows `st.error`, after which
the script continues; a missing CSV raises an uncaught `FileNotFoundError`
inside `load_and_clean_data`, so nothing after line 113 runs. -/

/-- The six CSV file names read at lines 73-78. -/
def csvFiles : List String :=
  ["ART coverage by country.csv",
   "Paediatric ART coverage by country.csv",
   "Number of cases in adults (15-49) by country.csv",
   "Number of deaths by country.csv",
   "Number of people living with HIV by country.csv",
   "prevention of mother-to-child transmission (PMTCT).csv"]

/-- Observable outcome of one script run: explicit `st.error` messages,
whether an exception escaped, and whether the main page rendered. -/
structure PageOutcome where
  errorMessages : List String
  uncaughtException : Bool
  mainPageRendered : Bool
deriving DecidableEq, Repr

/-- Control-flow model of the script given the set of files present:
`set_background('background.jpg')` runs first (its `FileNotFoundError` is
caught and reported via `st.error`, lines 60-61); then `load_and_clean_data`
reads the six CSVs with no handler, so a missing CSV propagates an uncaught
exception and the rest of the page never renders. -/
def runScript (files : List String) : PageOutcome :=
  let bgMsgs : List String :=
    if "background.jpg" ∈ files then []
    else ["Background image not found. Make sure it's in the same folder as the script."]
  if csvFiles.all (fun f => f ∈ files) then
    { errorMessages := bgMsgs, uncaughtException := false, mainPageRendered := true }
  else
    { errorMessages := bgMsgs, uncaughtException := true, mainPageRendered := false }

/-!  Sample source tables.  The CSV files themselves are not part of the
source snapshot; their shape is modelled from the spec (§6: each file has a
`Country` column, a `WHO Region` column and one or more indicator columns
formatted as bracketed ranges `"V [lo-hi]"`; §4.2: the count-type sources
each produce a `Count_median` column) and from the column names the dashboard
reads after cleaning (lines 101-104, 135-137, 203, 208, 215). -/

/-- Modelled from the spec: `ART coverage by country.csv` — `Country`, a
bracketed ART-coverage indicator, `WHO Region`. -/
def raw_art_coverage : Table :=
  [("Country", ColData.obj [some "Angola", some "Benin"]),
   ("Estimated ART coverage among people living with HIV (%)",
    ColData.obj [some "25 [20-30]", some "31 [28-35]"]),
   ("WHO Region", ColData.obj [some "Africa", some "Africa"])]

/-- Modelled from the spec: `Paediatric ART coverage by country.csv`. -/
def raw_paediatric_art : Table :=
  [("Country", ColData.obj [some "Angola", some "Benin"]),
   ("Estimated ART coverage among children (%)",
    ColData.obj [some "20 [15-25]", some "22 [18-28]"]),
   ("WHO Region", ColData.obj [some "Africa", some "Africa"])]

/-- Modelled from the spec: `Number of cases in adults (15-49) by country.csv`
— a bracketed `Count` indicator. -/
def raw_adult_cases : Table :=
  [("Country", ColData.obj [some "Angola", some "Benin"]),
   ("Count", ColData.obj [some "13 [9-17]", some "7 [5-9]"]),
   ("WHO Region", ColData.obj [some "Africa", some "Africa"])]

/-- Modelled from the spec: `Number of deaths by country.csv` — a bracketed
`Count` indicator with a literal missing-data token. -/
def raw_deaths : Table :=
  [("Country", ColData.obj [some "Angola", some "Benin"]),
   ("Count", ColData.obj [some "14 [10-18]", some "No data"]),
   ("WHO Region", ColData.obj [some "Africa", some "Africa"])]

/-- Modelled from the spec: `Number of people living with HIV by country.csv`
— a bracketed `Count` indicator, including the spec's `"45 [30-60]"` example. -/
def raw_living_with_hiv : Table :=
  [("Country", ColData.obj [some "Angola", some "Benin"]),
   ("Count", ColData.obj [some "45 [30-60]", some "12 [8-16]"]),
   ("WHO Region", ColData.obj [some "Africa", some "Africa"])]

/-- Modelled from the spec: `prevention of mother-to-child transmission
(PMTCT).csv` — a bracketed `Percentage Recieved` indicator. -/
def raw_pmtct : Table :=
  [("Country", ColData.obj [some "Angola", some "Benin"]),
   ("Percentage Recieved", ColData.obj [some "95 [90-95]", some "na"]),
   ("WHO Region", ColData.obj [some "Africa", some "Africa"])]

/-- The non-key (neither `Country` nor `WHO_Region`) column names of a
cleaned DataFrame. -/
def nonKeyHeader (t : Table) : List String :=
  (t.filter (fun p => decide (p.1 ≠ "Country" ∧ p.1 ≠ "WHO_Region"))).map Prod.fst

/-- A small cleaned keyed table used to instantiate the merge theorems. -/
def demo_m1 : MTable :=
  { header := ["WHO_Region", "Count_median_living"],
    rows := [(Val.str "Angola", [Val.str "Africa", Val.num 45])] }

/-- A second cleaned keyed table with a country disjoint from `demo_m1`. -/
def demo_m2 : MTable :=
  { header := ["Count_median_deaths"], rows := [(Val.str "Benin", [Val.num 14])] }

/-- A third cleaned keyed table. -/
def demo_m3 : MTable :=
  { header := ["Count_median_adult_cases"], rows := [(Val.str "Chad", [Val.num 13])] }

/-- A fourth cleaned keyed table. -/
def demo_m4 : MTable :=
  { header := ["Estimated_ART_coverage_among_people_living_with_HIV_percent_median"],
    rows := [(Val.str "Denmark", [Val.num 25])] }

/-- A fifth cleaned keyed table. -/
def demo_m5 : MTable :=
  { header := ["Estimated_ART_coverage_among_children_percent_median"],
    rows := [(Val.str "Egypt", [Val.num 20])] }

/-- A sixth cleaned keyed table. -/
def demo_m6 : MTable :=
  { header := ["PMTCT_Percentage_Recieved_median"],
    rows := [(Val.str "France", [Val.num 95])] }

/-! ### Helper lemmas about the outer merge -/

theorem keys_dropCol (t : MTable) (n : String) : (t.dropCol n).keys = t.keys := by
  simp [MTable.keys, MTable.dropCol]

theorem fst_mem_mergeRowsLeft (r : MTable) (lp : Val × List Val) (v : Val) :
    v ∈ (mergeRowsLeft r lp).map Prod.fst ↔ v = lp.1 := by
  unfold mergeRowsLeft
  by_cases h : r.rows.filter (fun rp => decide (rp.1 = lp.1)) = []
  · simp [h]
  · rw [if_neg h]
    simp only [List.map_map, List.mem_map, Function.comp_apply]
    constructor
    · rintro ⟨a, _, rfl⟩
      rfl
    · rintro rfl
      obtain ⟨a, ha⟩ := List.exists_mem_of_ne_nil _ h
      exact ⟨a, ha, rfl⟩

theorem fst_mem_mergeRowsRight (l r : MTable) (v : Val) :
    v ∈ (mergeRowsRight l r).map Prod.fst ↔
      ∃ rp ∈ r.rows, rp.1 = v ∧ ∀ lp ∈ l.rows, lp.1 ≠ v := by
  unfold mergeRowsRight
  simp only [List.map_map, List.mem_map, Function.comp, List.mem_filter,
    List.all_eq_true, decide_eq_true_eq]
  constructor
  · rintro ⟨a, ⟨ha, hall⟩, rfl⟩
    exact ⟨a, ha, rfl, fun lp hlp => hall lp hlp⟩
  · rintro ⟨rp, hrp, rfl, hall⟩
    exact ⟨rp, ⟨hrp, fun lp hlp => hall lp hlp⟩, rfl⟩

theorem mem_keys_mergeOuter (l r : MTable) (v : Val) :
    v ∈ (mergeOuter l r).keys ↔ v ∈ l.keys ∨ v ∈ r.keys := by
  have hleft : ∀ (rows : List (Val × List Val)),
      v ∈ ((rows.map (mergeRowsLeft r)).flatten).map Prod.fst ↔
        v ∈ rows.map Prod.fst := by
    intro rows
    induction rows with
    | nil => simp
    | cons p ps ih =>
      simp only [List.map_cons, List.flatten_cons, List.map_append,
        List.mem_append, ih, fst_mem_mergeRowsLeft, List.mem_cons]
  constructor
  · intro hv
    rcases (by
      simpa only [mergeOuter, MTable.keys, List.map_append, List.mem_append] using hv) with h | h
    · exact Or.inl ((hleft l.rows).mp h)
    · rcases (fst_mem_mergeRowsRight l r v).mp h with ⟨rp, hrp, he, _⟩
      exact Or.inr (he ▸ List.mem_map_of_mem Prod.fst hrp)
  · intro hv
    have : v ∈ ((l.rows.map (mergeRowsLeft r)).flatten).map Prod.fst ∨
        v ∈ (mergeRowsRight l r).map Prod.fst := by
      rcases hv with h | h
      · exact Or.inl ((hleft l.rows).mpr h)
      · by_cases hl : v ∈ l.keys
        · exact Or.inl ((hleft l.rows).mpr hl)
        · rcases List.mem_map.mp h with ⟨rp, hrp, he⟩
          refine Or.inr ((fst_mem_mergeRowsRight l r v).mpr ⟨rp, hrp, he, ?_⟩)
          intro lp hlp hc
          exact hl (hc ▸ List.mem_map_of_mem Prod.fst hlp)
    simpa only [mergeOuter, MTable.keys, List.map_append, List.mem_append] using this

theorem filter_key_single (rs : List (Val × List Val))
    (h : (rs.map Prod.fst).Nodup) (k : Val) :
    rs.filter (fun rp => decide (rp.1 = k)) = [] ∨
      ∃ p, rs.filter (fun rp => decide (rp.1 = k)) = [p] := by
  induction rs with
  | nil => simp
  | cons p ps ih =>
    simp only [List.map_cons, List.nodup_cons] at h
    by_cases hp : p.1 = k
    · right
      refine ⟨p, ?_⟩
      rw [List.filter_cons_of_pos (by simp [hp])]
      have hnil : ps.filter (fun rp => decide (rp.1 = k)) = [] := by
        rw [List.filter_eq_nil_iff]
        intro a ha
        simp only [decide_eq_true_eq]
        intro hak
        exact h.1 (hp ▸ hak ▸ List.mem_map_of_mem Prod.fst ha)
      rw [hnil]
    · rw [List.filter_cons_of_neg (by simp [hp])]
      exact ih h.2

theorem fst_mergeRowsLeft_of_nodup (r : MTable) (hr : r.keys.Nodup)
    (lp : Val × List Val) : (mergeRowsLeft r lp).map Prod.fst = [lp.1] := by
  unfold mergeRowsLeft
  rcases filter_key_single r.rows hr lp.1 with h | ⟨p, h⟩
  · rw [if_pos h]
    rfl
  · rw [h]
    simp

theorem keys_mergeOuter_nodup (l r : MTable) (hl : l.keys.Nodup)
    (hr : r.keys.Nodup) : (mergeOuter l r).keys.Nodup := by
  have hA : ∀ rows : List (Val × List Val),
      ((rows.map (mergeRowsLeft r)).flatten).map Prod.fst = rows.map Prod.fst := by
    intro rows
    induction rows with
    | nil => rfl
    | cons p ps ih =>
      simp only [List.map_cons, List.flatten_cons, List.map_append, ih,
        fst_mergeRowsLeft_of_nodup r hr p]
      rfl
  have hkeys : (mergeOuter l r).keys =
      l.keys ++ (mergeRowsRight l r).map Prod.fst := by
    simp only [mergeOuter, MTable.keys, List.map_append, hA l.rows]
  rw [hkeys]
  refine List.Nodup.append hl ?_ ?_
  · have hsub : ((r.rows.filter (fun rp =>
        l.rows.all (fun lp => decide (lp.1 ≠ rp.1)))).map Prod.fst).Sublist r.keys :=
      List.Sublist.map Prod.fst (List.filter_sublist r.rows)
    have heq : (mergeRowsRight l r).map Prod.fst =
        (r.rows.filter (fun rp => l.rows.all (fun lp => decide (lp.1 ≠ rp.1)))).map Prod.fst := by
      simp [mergeRowsRight, List.map_map, Function.comp]
    rw [heq]
    exact List.Nodup.sublist hsub hr
  · intro v hv hv2
    rcases (fst_mem_mergeRowsRight l r v).mp hv2 with ⟨rp, _, _, hall⟩
    rcases List.mem_map.mp hv with ⟨lp, hlp, he⟩
    exact hall lp hlp he

/-! ### Claim theorems -/

/-- C3: the merge chain of `load_and_clean_data` is an outer join on
`Country` that drops no country — a value is a `Country` of the merged
result exactly when it is a `Country` of one of the six cleaned source
tables — and when the sources' country sets are pairwise disjoint and
duplicate-free, each country appears exactly once in the result
(the merge is a bijection on `Country`). -/
theorem outer_merge_drops_no_country (t1 t2 t3 t4 t5 t6 : MTable) :
    (∀ v, v ∈ (load_merge t1 t2 t3 t4 t5 t6).keys ↔
      (v ∈ t1.keys ∨ v ∈ t2.keys ∨ v ∈ t3.keys ∨ v ∈ t4.keys ∨
       v ∈ t5.keys ∨ v ∈ t6.keys)) ∧
    ([t1, t2, t3, t4, t5, t6].Pairwise (fun a b => ∀ v ∈ a.keys, v ∉ b.keys) →
     t1.keys.Nodup → t2.keys.Nodup → t3.keys.Nodup → t4.keys.Nodup →
     t5.keys.Nodup → t6.keys.Nodup →
     (load_merge t1 t2 t3 t4 t5 t6).keys.Nodup) := by
  have hunfold : load_merge t1 t2 t3 t4 t5 t6 =
      mergeOuter (mergeOuter (mergeOuter (mergeOuter
        (mergeOuter t1 (t2.dropCol "WHO_Region")) (t3.dropCol "WHO_Region"))
        (t4.dropCol "WHO_Region")) (t5.dropCol "WHO_Region"))
        (t6.dropCol "WHO_Region") := rfl
  constructor
  · intro v
    rw [hunfold]
    simp only [mem_keys_mergeOuter, keys_dropCol, or_assoc]
  · intro _ h1 h2 h3 h4 h5 h6
    rw [hunfold]
    have d2 : (t2.dropCol "WHO_Region").keys.Nodup := by rw [keys_dropCol]; exact h2
    have d3 : (t3.dropCol "WHO_Region").keys.Nodup := by rw [keys_dropCol]; exact h3
    have d4 : (t4.dropCol "WHO_Region").keys.Nodup := by rw [keys_dropCol]; exact h4
    have d5 : (t5.dropCol "WHO_Region").keys.Nodup := by rw [keys_dropCol]; exact h5
    have d6 : (t6.dropCol "WHO_Region").keys.Nodup := by rw [keys_dropCol]; exact h6
    exact keys_mergeOuter_nodup _ _ (keys_mergeOuter_nodup _ _
      (keys_mergeOuter_nodup _ _ (keys_mergeOuter_nodup _ _
        (keys_mergeOuter_nodup _ _ h1 d2) d3) d4) d5) d6

/-- C3 witness: on six concrete single-country tables with disjoint,
duplicate-free country sets, the merged result contains the last table's
country and has no duplicate country. -/
theorem outer_merge_drops_no_country_witness :
    Val.str "France" ∈ (load_merge demo_m1 demo_m2 demo_m3 demo_m4 demo_m5 demo_m6).keys ∧
    (load_merge demo_m1 demo_m2 demo_m3 demo_m4 demo_m5 demo_m6).keys.Nodup := by
  have h := outer_merge_drops_no_country demo_m1 demo_m2 demo_m3 demo_m4 demo_m5 demo_m6
  exact ⟨(h.1 (Val.str "France")).mpr (by decide),
    h.2 (by decide) (by decide) (by decide) (by decide) (by decide) (by decide) (by decide)⟩

/-- C5: if the `Country` key is unique within each of the six cleaned source
tables, it remains unique in the merged result of `load_and_clean_data`'s
merge chain. -/
theorem merge_preserves_country_uniqueness (t1 t2 t3 t4 t5 t6 : MTable)
    (h1 : t1.keys.Nodup) (h2 : t2.keys.Nodup) (h3 : t3.keys.Nodup)
    (h4 : t4.keys.Nodup) (h5 : t5.keys.Nodup) (h6 : t6.keys.Nodup) :
    (load_merge t1 t2 t3 t4 t5 t6).keys.Nodup := by
  have d2 : (t2.dropCol "WHO_Region").keys.Nodup := by rw [keys_dropCol]; exact h2
  have d3 : (t3.dropCol "WHO_Region").keys.Nodup := by rw [keys_dropCol]; exact h3
  have d4 : (t4.dropCol "WHO_Region").keys.Nodup := by rw [keys_dropCol]; exact h4
  have d5 : (t5.dropCol "WHO_Region").keys.Nodup := by rw [keys_dropCol]; exact h5
  have d6 : (t6.dropCol "WHO_Region").keys.Nodup := by rw [keys_dropCol]; exact h6
  exact keys_mergeOuter_nodup _ _ (keys_mergeOuter_nodup _ _
    (keys_mergeOuter_nodup _ _ (keys_mergeOuter_nodup _ _
      (keys_mergeOuter_nodup _ _ h1 d2) d3) d4) d5) d6

/-- C5 witness: country uniqueness of the merged result on six concrete
tables, each with a unique (single) country. -/
theorem merge_preserves_country_uniqueness_witness :
    (load_merge demo_m2 demo_m3 demo_m4 demo_m5 demo_m6 demo_m1).keys.Nodup :=
  merge_preserves_country_uniqueness demo_m2 demo_m3 demo_m4 demo_m5 demo_m6 demo_m1
    (by decide) (by decide) (by decide) (by decide) (by decide) (by decide)

/-! ### Helper lemmas about the range-string parsing -/

theorem firstTokChars_no_sep (V rest : List Char)
    (h : ∀ c ∈ V, ¬(c.isWhitespace ∨ c = '[')) :
    firstTokChars (V ++ ' ' :: rest) = V := by
  induction V with
  | nil => simp [firstTokChars]
  | cons c cs ih =>
    simp only [List.cons_append, firstTokChars, List.append_eq]
    rw [if_neg (h c (List.mem_cons_self c cs)),
      ih (fun a ha => h a (List.mem_cons_of_mem c ha))]

theorem firstToken_bracket (V rest : String)
    (h : ∀ c ∈ V.data, ¬(c.isWhitespace ∨ c = '[')) :
    firstToken (V ++ " [" ++ rest ++ "]") = V := by
  have hdata : (V ++ " [" ++ rest ++ "]").data
      = V.data ++ ' ' :: ('[' :: (rest.data ++ [']'])) := by
    simp [String.data_append]
  unfold firstToken
  rw [hdata, firstTokChars_no_sep V.data _ h]

theorem closesBracket_append (rest : List Char) (h : ∀ c ∈ rest, c ≠ '\n') :
    closesBracket (rest ++ [']']) = true := by
  induction rest with
  | nil => rfl
  | cons c cs ih =>
    simp only [List.cons_append, closesBracket]
    by_cases hc : c = ']'
    · rw [if_pos hc]
    · rw [if_neg hc, if_neg (h c (List.mem_cons_self c cs))]
      exact ih (fun a ha => h a (List.mem_cons_of_mem c ha))

theorem hasBracketPairChars_append (pre rest : List Char)
    (h : ∀ c ∈ rest, c ≠ '\n') :
    hasBracketPairChars (pre ++ '[' :: (rest ++ [']'])) = true := by
  induction pre with
  | nil =>
    simp only [List.nil_append, hasBracketPairChars, if_pos,
      closesBracket_append rest h, Bool.true_or]
  | cons c cs ih =>
    simp only [List.cons_append, hasBracketPairChars, List.append_eq]
    by_cases hc : c = '['
    · rw [if_pos hc, ih, Bool.or_true]
    · rw [if_neg hc]
      exact ih

theorem hasBracketPair_of_shape (V rest : String)
    (h : ∀ c ∈ rest.data, c ≠ '\n') :
    hasBracketPair (V ++ " [" ++ rest ++ "]") = true := by
  unfold hasBracketPair
  have hdata : (V ++ " [" ++ rest ++ "]").data
      = (V.data ++ [' ']) ++ '[' :: (rest.data ++ [']']) := by
    simp [String.data_append]
  rw [hdata]
  exact hasBracketPairChars_append (V.data ++ [' ']) rest.data h

theorem replaceMissing_of_bracket (s : String) (h : '[' ∈ s.data) :
    replaceMissing (some s) = some s := by
  rw [show replaceMissing (some s)
      = if s = "Nodata" ∨ s = "na" ∨ s = "No data" then none else some s from rfl]
  rw [if_neg]
  rintro (rfl | rfl | rfl) <;> exact absurd h (by decide)

/-- C1: for a cell of the form `"V [lo-hi]"`, the derived value is `V`
parsed as a float — `extractMedian` returns exactly the parse of the first
whitespace/`[`-split token — and `clean_and_extract` on a table whose
`Count` column holds such a cell produces a `Count_median` column holding
that value. -/
theorem median_extraction_first_token (V rest : String) (q : ℚ)
    (hsep : ∀ c ∈ V.data, ¬(c.isWhitespace ∨ c = '['))
    (hnl : ∀ c ∈ rest.data, c ≠ '\n')
    (hq : pyFloat V = some q) :
    extractMedian (some (V ++ " [" ++ rest ++ "]")) = Except.ok (some q) ∧
    clean_and_extract [("Count", ColData.obj [some (V ++ " [" ++ rest ++ "]")])] =
      Except.ok [("Count_median", ColData.num [some q])] := by
  have hext : extractMedian (some (V ++ " [" ++ rest ++ "]")) = Except.ok (some q) := by
    rw [show extractMedian (some (V ++ " [" ++ rest ++ "]"))
        = (match pyFloat (firstToken (V ++ " [" ++ rest ++ "]")) with
           | some q => Except.ok (some q)
           | none => Except.error ()) from rfl]
    rw [firstToken_bracket V rest hsep, hq]
  refine ⟨hext, ?_⟩
  have hbr : '[' ∈ (V ++ " [" ++ rest ++ "]").data := by
    simp [String.data_append]
  have hrm := replaceMissing_of_bracket _ hbr
  have hhb := hasBracketPair_of_shape V rest hnl
  have hrn : renameHeader "Count" = "Count" := by decide
  simp [clean_and_extract, phase1, phase1Step, getCol, setCol, hasCol, hrm,
    objCellBracket, hhb, hext, phase2, coerceNumeric, hrn, List.mapM.loop,
    Except.map, Except.bind]

/-- C4: selecting "All" leaves the merged table unchanged, and selecting a
specific region keeps exactly the rows whose `WHO_Region` equals the
selection. -/
theorem region_filter_correct (t : MTable) (sel : String) (hsel : sel ≠ "All") :
    filterRegion t "All" = t ∧
    (∀ row, row ∈ (filterRegion t sel).rows ↔
      row ∈ t.rows ∧ regionOf t row = Val.str sel) := by
  constructor
  · unfold filterRegion
    rw [if_pos rfl]
  · intro row
    unfold filterRegion
    rw [if_neg hsel]
    simp [List.mem_filter]

/-- C4 witness: on a concrete table, "All" is the identity and the "Africa"
selection keeps the row whose region is `Africa`. -/
theorem region_filter_correct_witness :
    filterRegion demo_m1 "All" = demo_m1 ∧
    ((Val.str "Angola", [Val.str "Africa", Val.num 45]) ∈ (filterRegion demo_m1 "Africa").rows ↔
      (Val.str "Angola", [Val.str "Africa", Val.num 45]) ∈ demo_m1.rows ∧
      regionOf demo_m1 (Val.str "Angola", [Val.str "Africa", Val.num 45]) = Val.str "Africa") :=
  ⟨(region_filter_correct demo_m1 "Africa" (by decide)).1,
   (region_filter_correct demo_m1 "Africa" (by decide)).2 _⟩

theorem charsLe_total : ∀ x y : List Char, charsLe x y = true ∨ charsLe y x = true := by
  intro x
  induction x with
  | nil => intro y; exact Or.inl rfl
  | cons a as ih =>
    intro y
    cases y with
    | nil => exact Or.inr rfl
    | cons b bs =>
      rcases lt_trichotomy a b with hlt | heq | hgt
      · left
        simp [charsLe, hlt]
      · subst heq
        rcases ih bs with h | h
        · left
          simp [charsLe, h]
        · right
          simp [charsLe, h]
      · right
        simp [charsLe, hgt]

theorem charsLe_trans : ∀ x y z : List Char,
    charsLe x y = true → charsLe y z = true → charsLe x z = true := by
  intro x
  induction x with
  | nil => intro y z _ _; rfl
  | cons a as ih =>
    intro y z h1 h2
    cases y with
    | nil => simp [charsLe] at h1
    | cons b bs =>
      cases z with
      | nil => simp [charsLe] at h2
      | cons c cs =>
        simp only [charsLe] at h1 h2 ⊢
        by_cases hab : a < b
        · by_cases hbc : b < c
          · simp [lt_trans hab hbc]
          · by_cases hbc2 : b = c
            · subst hbc2
              simp [hab]
            · rw [if_neg hbc, if_neg hbc2] at h2
              exact absurd h2 (by simp)
        · by_cases hab2 : a = b
          · subst hab2
            rw [if_neg hab, if_pos rfl] at h1
            by_cases hbc : a < c
            · simp [hbc]
            · by_cases hbc2 : a = c
              · subst hbc2
                rw [if_neg hbc, if_pos rfl] at h2
                simp [hbc, ih bs cs h1 h2]
              · rw [if_neg hbc, if_neg hbc2] at h2
                exact absurd h2 (by simp)
          · rw [if_neg hab, if_neg hab2] at h1
            exact absurd h1 (by simp)

/-- C10: the region dropdown is "All" followed by the sorted distinct
non-null regions of the merged table, and for every specific region
selection the rows with a null `WHO_Region` are excluded from the filtered
view. -/
theorem region_dropdown_null_excluded (t : MTable) (sel : String) (hsel : sel ≠ "All") :
    (regionList t).head? = some "All" ∧
    (regionList t).tail.Sorted pyStrLe ∧
    (regionList t).tail.Nodup ∧
    (∀ s, s ∈ (regionList t).tail ↔ Val.str s ∈ t.rows.map (regionOf t)) ∧
    (∀ row ∈ (filterRegion t sel).rows, regionOf t row ≠ Val.na) := by
  haveI htot : IsTotal String pyStrLe := ⟨fun a b => charsLe_total a.data b.data⟩
  haveI htr : IsTrans String pyStrLe := ⟨fun a b c => charsLe_trans a.data b.data c.data⟩
  refine ⟨rfl, ?_, ?_, ?_, ?_⟩
  · exact List.sorted_insertionSort pyStrLe (regionStrs t).dedup
  · exact ((List.perm_insertionSort pyStrLe (regionStrs t).dedup).nodup_iff).mpr
      (List.nodup_dedup _)
  · intro s
    show s ∈ List.insertionSort pyStrLe (regionStrs t).dedup ↔ _
    rw [(List.perm_insertionSort pyStrLe (regionStrs t).dedup).mem_iff, List.mem_dedup]
    unfold regionStrs
    rw [List.mem_filterMap, List.mem_map]
    constructor
    · rintro ⟨row, hrow, hmatch⟩
      refine ⟨row, hrow, ?_⟩
      revert hmatch
      cases regionOf t row <;> simp
    · rintro ⟨row, hrow, hmatch⟩
      refine ⟨row, hrow, ?_⟩
      rw [hmatch]
  · intro row hrow
    unfold filterRegion at hrow
    rw [if_neg hsel] at hrow
    have := List.of_mem_filter hrow
    simp only [decide_eq_true_eq] at this
    rw [this]
    exact fun h => Val.noConfusion h

/-- C10 witness: on a concrete table with a null-region row, the dropdown is
`["All", "Africa"]`-shaped and the filtered view contains no null-region row. -/
theorem region_dropdown_null_excluded_witness :
    (regionList ⟨["WHO_Region"], [(Val.str "Chad", [Val.na]),
        (Val.str "Benin", [Val.str "Africa"])]⟩).head? = some "All" ∧
    (∀ row ∈ (filterRegion ⟨["WHO_Region"], [(Val.str "Chad", [Val.na]),
        (Val.str "Benin", [Val.str "Africa"])]⟩ "Africa").rows,
      regionOf ⟨["WHO_Region"], [(Val.str "Chad", [Val.na]),
        (Val.str "Benin", [Val.str "Africa"])]⟩ row ≠ Val.na) :=
  ⟨(region_dropdown_null_excluded ⟨["WHO_Region"], [(Val.str "Chad", [Val.na]),
      (Val.str "Benin", [Val.str "Africa"])]⟩ "Africa" (by decide)).1,
   (region_dropdown_null_excluded ⟨["WHO_Region"], [(Val.str "Chad", [Val.na]),
      (Val.str "Benin", [Val.str "Africa"])]⟩ "Africa" (by decide)).2.2.2.2⟩

theorem filterMap_toNumOpt_na (A B : List Val) :
    (A ++ Val.na :: B).filterMap toNumOpt = (A ++ B).filterMap toNumOpt := by
  simp [List.filterMap_append, List.filterMap_cons, toNumOpt]

/-- C2: the literal tokens `"No data"`, `"na"`, `"Nodata"` are cleaned to
null, a missing cell derives a missing median, and a null cell contributes
nothing to the displayed sum/mean aggregates (the KPI total and the
per-region group sum and mean are unchanged by a row whose cell is null). -/
theorem missing_tokens_null_excluded :
    (replaceMissing (some "No data") = none ∧ replaceMissing (some "na") = none ∧
     replaceMissing (some "Nodata") = none) ∧
    extractMedian none = Except.ok none ∧
    (∀ (hd : List String) (r1 r2 : List (Val × List Val)) (row : Val × List Val),
      cellAt hd row.2 "Count_median_living" = Val.na →
      total_living ⟨hd, r1 ++ row :: r2⟩ = total_living ⟨hd, r1 ++ r2⟩) ∧
    (∀ (hd : List String) (r1 r2 : List (Val × List Val)) (row : Val × List Val)
       (col reg : String),
      cellAt hd row.2 col = Val.na →
      regionGroupSum ⟨hd, r1 ++ row :: r2⟩ col reg
        = regionGroupSum ⟨hd, r1 ++ r2⟩ col reg ∧
      regionGroupMean ⟨hd, r1 ++ row :: r2⟩ col reg
        = regionGroupMean ⟨hd, r1 ++ r2⟩ col reg) := by
  have hsum : ∀ (A B : List Val), colSum (A ++ Val.na :: B) = colSum (A ++ B) := by
    intro A B
    unfold colSum
    rw [filterMap_toNumOpt_na]
  have hmean : ∀ (A B : List Val), colMean (A ++ Val.na :: B) = colMean (A ++ B) := by
    intro A B
    unfold colMean
    rw [filterMap_toNumOpt_na]
  refine ⟨⟨rfl, rfl, rfl⟩, rfl, ?_, ?_⟩
  · intro hd r1 r2 row hna
    unfold total_living colVals
    simp only [List.map_append, List.map_cons, hna]
    exact hsum _ _
  · intro hd r1 r2 row col reg hna
    unfold regionGroupSum regionGroupMean regionOf
    simp only [List.filter_append, List.filter_cons]
    by_cases hr : cellAt hd row.2 "WHO_Region" = Val.str reg
    · rw [if_pos (by simp [hr])]
      simp only [List.map_append, List.map_cons, hna]
      exact ⟨hsum _ _, hmean _ _⟩
    · rw [if_neg (by simp [hr])]
      exact ⟨rfl, rfl⟩

/-- C2 witness: a concrete null `Count_median_living` cell is excluded from
the KPI total and from the per-region mean. -/
theorem missing_tokens_null_excluded_witness :
    total_living ⟨["WHO_Region", "Count_median_living"],
      [(Val.str "Chad", [Val.str "Africa", Val.na]),
       (Val.str "Benin", [Val.str "Africa", Val.num 5])]⟩
      = total_living ⟨["WHO_Region", "Count_median_living"],
          [(Val.str "Benin", [Val.str "Africa", Val.num 5])]⟩ ∧
    regionGroupMean ⟨["WHO_Region", "Count_median_living"],
      [(Val.str "Chad", [Val.str "Africa", Val.na]),
       (Val.str "Benin", [Val.str "Africa", Val.num 5])]⟩ "Count_median_living" "Africa"
      = regionGroupMean ⟨["WHO_Region", "Count_median_living"],
          [(Val.str "Benin", [Val.str "Africa", Val.num 5])]⟩ "Count_median_living" "Africa" :=
  ⟨missing_tokens_null_excluded.2.2.1 ["WHO_Region", "Count_median_living"] []
      [(Val.str "Benin", [Val.str "Africa", Val.num 5])]
      (Val.str "Chad", [Val.str "Africa", Val.na]) (by decide),
   (missing_tokens_null_excluded.2.2.2 ["WHO_Region", "Count_median_living"] []
      [(Val.str "Benin", [Val.str "Africa", Val.num 5])]
      (Val.str "Chad", [Val.str "Africa", Val.na])
      "Count_median_living" "Africa" (by decide)).2⟩

/-- C9: in a cleaned table, every column other than `Country` and
`WHO_Region` is a numeric column (numbers or missing) — the numeric
coercion pass converts every non-key column, so no raw range string
survives into the merged table. -/
theorem cleaned_nonkey_columns_numeric (t t' : Table)
    (h : clean_and_extract t = Except.ok t') :
    ∀ p ∈ t', p.1 ≠ "Country" → p.1 ≠ "WHO_Region" →
      ∃ cells, p.2 = ColData.num cells := by
  rw [show clean_and_extract t
      = Except.map (fun pr => phase2 (pr.1.filter (fun p => decide (p.1 ∉ pr.2))))
          (phase1 (t.map (fun p => (renameHeader p.1, p.2)))) from rfl] at h
  cases hp : phase1 (t.map (fun p => (renameHeader p.1, p.2))) with
  | error e =>
    rw [hp] at h
    exact absurd h (by simp [Except.map])
  | ok pr =>
    rw [hp] at h
    simp only [Except.map, Except.ok.injEq] at h
    subst h
    intro p hp2 hc hw
    unfold phase2 at hp2
    rcases List.mem_map.mp hp2 with ⟨q, _, hpq⟩
    by_cases hk : q.1 = "Country" ∨ q.1 = "WHO_Region"
    · rw [if_pos hk] at hpq
      subst hpq
      exact absurd hk (by tauto)
    · rw [if_neg hk] at hpq
      subst hpq
      exact ⟨coerceNumeric q.2, rfl⟩

/-- C9 witness: the cleaned living-with-HIV sample table's `Count_median`
column is numeric. -/
theorem cleaned_nonkey_columns_numeric_witness :
    ∃ cells, (("Count_median", ColData.num [some (45 : ℚ), some 12])).2
      = ColData.num cells :=
  cleaned_nonkey_columns_numeric raw_living_with_hiv
    [("Country", ColData.obj [some "Angola", some "Benin"]),
     ("WHO_Region", ColData.obj [some "Africa", some "Africa"]),
     ("Count_median", ColData.num [some 45, some 12])]
    (by decide)
    ("Count_median", ColData.num [some 45, some 12]) (by decide) (by decide) (by decide)

/-- C7 counterexample: cleaning a table whose bracketed `Count` column also
holds the unparsable cell `"abc"` aborts with an error (the uncaught
`ValueError` of `float`) instead of silently coercing the cell to missing,
so cleaning does not stay error-free on every malformed input. -/
theorem cleaning_error_on_malformed :
    clean_and_extract [("Count", ColData.obj [some "45 [30-60]", some "abc"])]
      = Except.error () := by decide

theorem mapM_extractMedian_error : ∀ (l : List (Option String)) (acc : List (Option ℚ)),
    (∃ x ∈ l, extractMedian x = Except.error ()) →
    List.mapM.loop extractMedian l acc = Except.error () := by
  intro l
  induction l with
  | nil =>
    intro acc h
    rcases h with ⟨x, hx, _⟩
    exact absurd hx (List.not_mem_nil x)
  | cons a as ih =>
    intro acc h
    rw [List.mapM.loop]
    cases hea : extractMedian a with
    | error e =>
      cases e
      rfl
    | ok b =>
      rcases h with ⟨x, hx, hxe⟩
      rcases List.mem_cons.mp hx with rfl | hx2
      · rw [hea] at hxe
        exact absurd hxe (by simp)
      · exact ih _ ⟨x, hx2, hxe⟩

/-- C7 amended: for every column name and every cell contents, a column
with no bracketed-range cell cleans without error, every cell being
silently coerced (a malformed cell becomes missing via the `none` of
`pyFloat`); but a column that contains a bracketed-range cell (a
one-column table, which never has a pre-existing `_median` column) aborts
cleaning with an error on any unparsable non-missing cell. -/
theorem cleaning_malformed_behavior (name : String) (cells : List (Option String)) :
    ((∀ c ∈ cells.map replaceMissing, objCellBracket c = false) →
     renameHeader name ≠ "Country" → renameHeader name ≠ "WHO_Region" →
     clean_and_extract [(name, ColData.obj cells)]
       = Except.ok [(renameHeader name,
           ColData.num ((cells.map replaceMissing).map (fun c => c.bind pyFloat)))]) ∧
    (∀ s, some s ∈ cells.map replaceMissing → pyFloat (firstToken s) = none →
     (∃ c ∈ cells.map replaceMissing, objCellBracket c = true) →
     clean_and_extract [(name, ColData.obj cells)] = Except.error ()) := by
  constructor
  · intro hnb hc hw
    have hany : (cells.map replaceMissing).any objCellBracket = false := by
      rw [List.any_eq_false]
      intro c hcc
      rw [hnb c hcc]
      simp
    simp [clean_and_extract, phase1, phase1Step, getCol, setCol, hany,
      phase2, coerceNumeric, hc, hw, Except.map, Except.bind]
  · intro s hs hsno hex
    have hany : (cells.map replaceMissing).any objCellBracket = true := by
      rw [List.any_eq_true]
      exact hex
    have h7 : "_median".data.length = 7 := rfl
    have hne : renameHeader name ≠ renameHeader name ++ "_median" := by
      intro he
      have hlen := congrArg (fun s => s.data.length) he
      simp only [String.data_append, List.length_append, h7] at hlen
      omega
    have hse : extractMedian (some s) = Except.error () := by
      rw [show extractMedian (some s)
          = (match pyFloat (firstToken s) with
             | some q => Except.ok (some q)
             | none => Except.error ()) from rfl, hsno]
    have hml := mapM_extractMedian_error (cells.map replaceMissing) []
      ⟨some s, hs, hse⟩
    simp [clean_and_extract, phase1, phase1Step, getCol, setCol, hasCol, hany,
      hne, List.mapM, hml, Except.map, Except.bind]

/-- C7 amended witness: the bracket-free column `["abc"]` cleans to a
missing value, while the bracketed column `["45 [30-60]", "abc"]` aborts
cleaning with an error. -/
theorem cleaning_malformed_behavior_witness :
    clean_and_extract [("Notes", ColData.obj [some "abc"])]
      = Except.ok [("Notes", ColData.num [none])] ∧
    clean_and_extract [("Count", ColData.obj [some "45 [30-60]", some "abc"])]
      = Except.error () :=
  ⟨((cleaning_malformed_behavior "Notes" [some "abc"]).1
      (by decide) (by decide) (by decide)).trans (by decide),
   (cleaning_malformed_behavior "Count" [some "45 [30-60]", some "abc"]).2
     "abc" (by decide) (by decide) ⟨some "45 [30-60]", by decide, by decide⟩⟩

/-- C8 counterexample: with all six CSVs present but `background.jpg`
missing, the script emits an implemented, user-visible error message while
the page still renders fully — so the missing-CSV case is not the only
implemented error path, and an implemented error message need not disable
the page. -/
theorem background_error_path :
    runScript csvFiles =
      { errorMessages :=
          ["Background image not found. Make sure it's in the same folder as the script."],
        uncaughtException := false,
        mainPageRendered := true } := by decide

/-- C8 amended: a missing CSV aborts the script with an uncaught exception
(surfaced by the framework) and nothing after the load renders; the only
implemented, handled error path is the missing background image, whose
`st.error` message does not disable the rest of the page. -/
theorem missing_csv_aborts_script (files : List String)
    (h : ∃ f ∈ csvFiles, f ∉ files) :
    (runScript files).uncaughtException = true ∧
    (runScript files).mainPageRendered = false ∧
    runScript csvFiles =
      { errorMessages :=
          ["Background image not found. Make sure it's in the same folder as the script."],
        uncaughtException := false,
        mainPageRendered := true } := by
  rcases h with ⟨f, hf, hnf⟩
  have hC : ¬ (csvFiles.all (fun g => decide (g ∈ files)) = true) := by
    simp only [List.all_eq_true, decide_eq_true_eq]
    intro hall
    exact hnf (hall f hf)
  refine ⟨?_, ?_, by decide⟩ <;>
  · unfold runScript
    rw [if_neg hC]

/-- C8 witness: with no files present at all, the script aborts before the
main page renders, while the background-image path remains the implemented
message-only error path. -/
theorem missing_csv_aborts_script_witness :
    (runScript []).uncaughtException = true ∧
    (runScript []).mainPageRendered = false ∧
    runScript csvFiles =
      { errorMessages :=
          ["Background image not found. Make sure it's in the same folder as the script."],
        uncaughtException := false,
        mainPageRendered := true } :=
  missing_csv_aborts_script []
    ⟨"ART coverage by country.csv", by decide, by decide⟩

/-- C6: on the spec-modelled six source tables, the cleaned tables carry
pairwise distinct non-key column names after the per-source renames, and the
merged table exposes every source's indicator under its own unsuffixed,
duplicate-free column name. -/
theorem renames_disambiguate_columns :
    (clean_and_extract raw_living_with_hiv).map
        (fun t => nonKeyHeader (renameCol t "Count_median" "Count_median_living"))
      = Except.ok ["Count_median_living"] ∧
    (clean_and_extract raw_deaths).map
        (fun t => nonKeyHeader (renameCol t "Count_median" "Count_median_deaths"))
      = Except.ok ["Count_median_deaths"] ∧
    (clean_and_extract raw_adult_cases).map
        (fun t => nonKeyHeader (renameCol t "Count_median" "Count_median_adult_cases"))
      = Except.ok ["Count_median_adult_cases"] ∧
    (clean_and_extract raw_art_coverage).map nonKeyHeader
      = Except.ok ["Estimated_ART_coverage_among_people_living_with_HIV_percent_median"] ∧
    (clean_and_extract raw_paediatric_art).map nonKeyHeader
      = Except.ok ["Estimated_ART_coverage_among_children_percent_median"] ∧
    (clean_and_extract raw_pmtct).map
        (fun t => nonKeyHeader (renameCol t "Percentage_Recieved_median"
          "PMTCT_Percentage_Recieved_median"))
      = Except.ok ["PMTCT_Percentage_Recieved_median"] ∧
    load_and_clean_data raw_art_coverage raw_paediatric_art raw_adult_cases
        raw_deaths raw_living_with_hiv raw_pmtct
      = Except.ok
        { header := ["WHO_Region", "Count_median_living", "Count_median_deaths",
            "Count_median_adult_cases",
            "Estimated_ART_coverage_among_people_living_with_HIV_percent_median",
            "Estimated_ART_coverage_among_children_percent_median",
            "PMTCT_Percentage_Recieved_median"],
          rows := [(Val.str "Angola",
              [Val.str "Africa", Val.num 45, Val.num 14, Val.num 13, Val.num 25,
               Val.num 20, Val.num 95]),
            (Val.str "Benin",
              [Val.str "Africa", Val.num 12, Val.na, Val.num 7, Val.num 31,
               Val.num 22, Val.na])] } ∧
    List.Nodup ["WHO_Region", "Count_median_living", "Count_median_deaths",
      "Count_median_adult_cases",
      "Estimated_ART_coverage_among_people_living_with_HIV_percent_median",
      "Estimated_ART_coverage_among_children_percent_median",
      "PMTCT_Percentage_Recieved_median"] := by decide

/-- C1 witness: the spec's example — the cell `"45 [30-60]"` yields the
derived median `45.0`, both at the cell level and through the cleaner. -/
theorem median_extraction_first_token_witness :
    extractMedian (some ("45" ++ " [" ++ "30-60" ++ "]")) = Except.ok (some 45) ∧
    clean_and_extract [("Count", ColData.obj [some ("45" ++ " [" ++ "30-60" ++ "]")])] =
      Except.ok [("Count_median", ColData.num [some 45])] :=
  median_extraction_first_token "45" "30-60" 45 (by decide) (by decide) (by decide)
